import Mathlib

/-!
Verification of the pyvospace node/transfer model and request dispatcher.

This file is a shallow embedding, in Lean 4, of the parts of the
pyvospace repository that its specification talks about:

* `src/pyvospace/core/model.py` — the node/property/transfer data model and
  its XML codec (`Node.fromstring`, `Node.tostring`, `Transfer.fromstring`,
  `Transfer.tostring`, `Node.uri_to_path`, `ContainerNode.set_nodes`, ...);
* `src/pyvospace/server/view.py` — the request dispatcher
  (`get_node_request`, `sync_transfer_request`, `get_transfer_details_request`).

XML documents are modelled by the tree type `XElem`; tags and attribute
names are written in prefixed form (`vos:` abbreviates the namespace
`http://www.ivoa.net/xml/VOSpace/v2.1` and `xsi:` abbreviates
`http://www.w3.org/2001/XMLSchema-instance`), matching the namespace map
`Node.NS` of the source.  Python exceptions raised by the model are values
of `VErr`; a Python function that may raise is embedded as a function into
`Except VErr _`.  Strings are compared exactly as Python compares `str`
values: code-point by code-point, which the executable helpers `chLe` and
`chEq` implement over `String.data`.
-/

/-! ## Character-list string helpers (kernel-computable) -/

/-- Code-point lexicographic `<=` on strings, as Python compares `str`
values for `list.sort` keys.  Defined over `List Char` so that it reduces
inside the kernel. -/
def chLe : List Char → List Char → Bool
  | [], _ => true
  | _ :: _, [] => false
  | a :: as, b :: bs =>
    if a.toNat < b.toNat then true
    else if b.toNat < a.toNat then false
    else chLe as bs

theorem chLe_refl (a : List Char) : chLe a a = true := by
  induction a with
  | nil => rfl
  | cons c cs ih => simp [chLe, ih]

theorem chLe_total (a b : List Char) : chLe a b = true ∨ chLe b a = true := by
  induction a generalizing b with
  | nil => exact Or.inl rfl
  | cons c cs ih =>
    cases b with
    | nil => exact Or.inr rfl
    | cons d ds =>
      rcases Nat.lt_trichotomy c.toNat d.toNat with h | h | h
      · exact Or.inl (by simp [chLe, h])
      · rcases ih ds with h2 | h2
        · exact Or.inl (by simp [chLe, h, h2])
        · exact Or.inr (by simp [chLe, h, h2])
      · exact Or.inr (by simp [chLe, h])

theorem chLe_trans {a b c : List Char} (hab : chLe a b = true)
    (hbc : chLe b c = true) : chLe a c = true := by
  induction a generalizing b c with
  | nil => rfl
  | cons x xs ih =>
    cases b with
    | nil => simp [chLe] at hab
    | cons y ys =>
      cases c with
      | nil => simp [chLe] at hbc
      | cons z zs =>
        simp only [chLe] at hab hbc ⊢
        by_cases h1 : x.toNat < y.toNat
        · by_cases h2 : y.toNat < z.toNat
          · simp [Nat.lt_trans h1 h2]
          · by_cases h3 : z.toNat < y.toNat
            · simp [h2, h3] at hbc
            · have hyz : y.toNat = z.toNat := by omega
              simp [hyz ▸ h1]
        · by_cases h4 : y.toNat < x.toNat
          · simp [h1, h4] at hab
          · have hxy : x.toNat = y.toNat := by omega
            by_cases h2 : y.toNat < z.toNat
            · simp [hxy ▸ h2]
            · by_cases h3 : z.toNat < y.toNat
              · simp [h2, h3] at hbc
              · have hab2 : chLe xs ys = true := by simpa [h1, h4] using hab
                have hbc2 : chLe ys zs = true := by simpa [h2, h3] using hbc
                have hxz : ¬ x.toNat < z.toNat := by omega
                have hzx : ¬ z.toNat < x.toNat := by omega
                simp [hxz, hzx, ih hab2 hbc2]

/-- Python `str <= str` on two strings (code-point lexicographic). -/
def strLe (a b : String) : Bool := chLe a.data b.data

/-- Python `a.startswith(b)` is prefix testing on code points. -/
def strStartswith (a b : String) : Bool := b.data.isPrefixOf a.data

/-- Characters strictly before the first occurrence of `c` (the whole list
when `c` does not occur): models `url.split(c, 1)[0]`. -/
def takeUntilCh (c : Char) : List Char → List Char
  | [] => []
  | a :: as => if a = c then [] else a :: takeUntilCh c as

/-- Split a character list on a separator character; models
`str.split(sep)` for a one-character separator. -/
def splitCh (c : Char) : List Char → List (List Char)
  | [] => [[]]
  | a :: as =>
    let r := splitCh c as
    if a = c then [] :: r
    else
      match r with
      | h :: t => (a :: h) :: t
      | [] => [[a]]

/-- Interleave `'/'` between path segments; models `"/".join(segs)`. -/
def joinSlash : List (List Char) → List Char
  | [] => []
  | [s] => s
  | s :: rest => s ++ '/' :: joinSlash rest

/-! ## urlparse and normpath models

`Node.uri_to_path` (model.py lines 179-186) runs
`urllib.parse.urlparse(uri).path`, then `os.path.normpath(...).lstrip('/')`.
Both library calls are external to the repository; they are modelled here
following their documented behaviour on the inputs `uri_to_path` feeds
them. -/

/-- The scheme-stripping step of `urllib.parse.urlsplit`: when every
character before the first `':'` is a valid scheme character (a leading
ASCII letter followed by letters, digits, `'+'`, `'-'` or `'.'`), the
scheme and the colon are removed; otherwise the input is unchanged.
Returns `some (scheme, rest)` when a scheme was split off; the first
component accumulates the scheme's characters in reverse. -/
def schemeSplitAux : List Char → List Char → Option (List Char × List Char)
  | _, [] => none
  | acc, c :: rest =>
    if c = ':' then some (acc.reverse, rest)
    else if c.isAlphanum || c = '+' || c = '-' || c = '.' then
      schemeSplitAux (c :: acc) rest
    else none

def schemeSplit (cs : List Char) : Option (List Char × List Char) :=
  match cs with
  | [] => none
  | c :: rest => if c.isAlpha then schemeSplitAux [c] rest else none

/-- The netloc-stripping step of `urlsplit`: after `"//"` the authority
extends to the first `'/'`, `'?'` or `'#'`; the path starts at that
delimiter. -/
def dropNetloc : List Char → List Char
  | [] => []
  | c :: rest => if c = '/' || c = '?' || c = '#' then c :: rest else dropNetloc rest

/-- The characters `urlsplit` strips from the left of the url before
parsing: the WHATWG C0 control characters (code points up to `0x1f`)
and the space. -/
def isC0orSpace (c : Char) : Bool := c.toNat ≤ 32

/-- The unsafe url bytes `urlsplit` deletes everywhere in the url: tab,
carriage return and line feed. -/
def isUnsafeUrlByte (c : Char) : Bool := c = '\t' || c = '\r' || c = '\n'

/-- The schemes for which `urlparse` splits `;params` off the last path
segment (`urllib.parse.uses_params`).  The empty scheme — the case of a
plain request path with no `scheme:` — is among them; `vos` is not. -/
def usesParams (scheme : List Char) : Bool :=
  ["", "ftp", "hdl", "prospero", "http", "imap", "https", "shttp", "rtsp",
   "rtspu", "sip", "sips", "mms", "sftp", "tel"].contains (String.mk scheme)

/-- Models `urllib.parse._splitparams(url)[0]` for a url that contains
`';'` (the only case `urlparse` calls it in): when the url has a slash,
only a `';'` inside the LAST segment starts the params, and a url whose
`';'` all sit in earlier segments is returned unchanged; with no slash,
everything from the first `';'` on is the params. -/
def pySplitParams (u : List Char) : List Char :=
  if u.contains '/' then
    let rev := u.reverse
    let seg := (rev.takeWhile (fun c => c ≠ '/')).reverse
    let pre := (rev.dropWhile (fun c => c ≠ '/')).reverse
    if seg.contains ';' then pre ++ takeUntilCh ';' seg
    else u
  else takeUntilCh ';' u

/-- Models `urllib.parse.urlparse(url).path`.  Following `urlsplit`:
left-strip C0 control characters and spaces, delete tab/CR/LF
everywhere, split off a valid scheme (lower-cased), strip an authority
introduced by `"//"`, then cut the fragment (after `'#'`) and the query
(after `'?'`).  Following `urlparse` itself: when the scheme is in
`uses_params` and the remaining path contains `';'`, the `;params`
suffix of the last segment is split off the path. -/
def pyUrlparsePath (url : String) : String :=
  let cs := url.data
  let cs := cs.dropWhile isC0orSpace
  let cs := cs.filter (fun c => !isUnsafeUrlByte c)
  let scheme : List Char :=
    match schemeSplit cs with
    | some p => p.1.map Char.toLower
    | none => []
  let cs := match schemeSplit cs with
            | some p => p.2
            | none => cs
  let cs := match cs with
            | '/' :: '/' :: rest => dropNetloc rest
            | other => other
  let cs := takeUntilCh '#' cs
  let cs := takeUntilCh '?' cs
  let cs := if usesParams scheme && cs.contains ';' then pySplitParams cs else cs
  String.mk cs

/-- Models `os.path.normpath(p).lstrip('/')` for a non-empty `p` that
contains no `'.'` character (the only inputs `uri_to_path` passes it, as
it rejects empty and dotted paths first): with no `.`/`..` components to
resolve, `normpath` collapses repeated slashes and drops a trailing
slash, and `lstrip('/')` then removes all leading slashes, leaving the
non-empty segments joined by single slashes. -/
def pyNormpathLstrip (p : String) : String :=
  String.mk (joinSlash ((splitCh '/' p.data).filter (fun seg => !seg.isEmpty)))

/-! ## Errors -/

/-- Exceptions the embedded code can raise.  `invalidURI` and
`invalidArgument` are the structured VOSpace errors of
`pyvospace/core/exception.py` that the dispatcher maps to HTTP 400;
`xmlSyntaxError` is lxml's parse failure; `attributeError` is Python's
`AttributeError`; the rest mirror the exception classes imported by
`view.py`. -/
inductive VErr where
  | invalidURI (msg : String)
  | invalidArgument (msg : String)
  | xmlSyntaxError
  | attributeError
  | notImplementedError
  | permissionDenied (msg : String)
  | invalidJobStateError (msg : String)
  | voSpaceError (code : Nat) (msg : String)
deriving DecidableEq

/-- Is this error one of the structured "invalid URI / invalid argument"
errors that the dispatcher surfaces as HTTP 400? -/
def VErr.isInvalidUriOrArgument : VErr → Bool
  | .invalidURI _ => true
  | .invalidArgument _ => true
  | _ => false

/-! ## `Node.uri_to_path` -/

/-- The body of `Node.uri_to_path` after the `urlparse` call, applied to
the parsed path: reject an empty path, reject a path containing `'.'`,
otherwise normalize and strip leading slashes. -/
def uriToPathCore (parsed : String) : Except VErr String :=
  if parsed = "" then .error (.invalidURI "URI does not exist.")
  else if parsed.data.contains '.' then .error (.invalidURI "Invalid character: '.' in URI")
  else .ok (pyNormpathLstrip parsed)

/-- Models `Node.uri_to_path` (model.py 179-186).  The argument is `none` when
the Python caller passes `None` (a missing XML attribute):
`urlparse(None)` coerces `None` to the empty string, whose parsed path is
empty. -/
def uri_to_path (uri : Option String) : Except VErr String :=
  uriToPathCore (match uri with
                 | none => ""
                 | some s => pyUrlparsePath s)

/-! ## XML documents

`XElem` models an lxml element: a namespaced tag (written in prefixed
form), its attribute map, its text, and its child elements.  Parsed XML
never holds duplicate attribute keys; attribute order is irrelevant
because the code only ever looks attributes up by name. -/

inductive XElem where
  | mk (tag : String) (attrs : List (String × String))
       (text : Option String) (children : List XElem)

def XElem.tag : XElem → String
  | .mk t _ _ _ => t

def XElem.attrs : XElem → List (String × String)
  | .mk _ a _ _ => a

def XElem.text : XElem → Option String
  | .mk _ _ t _ => t

def XElem.children : XElem → List XElem
  | .mk _ _ _ c => c

/-- Models `element.attrib.get(key, None)`. -/
def attrGet (e : XElem) (k : String) : Option String :=
  (e.attrs.find? (fun p => p.1 == k)).map (fun p => p.2)

/-- Models `element.find(tag, NS)`: the first direct child with the given tag. -/
def findChild (e : XElem) (t : String) : Option XElem :=
  e.children.find? (fun c => c.tag == t)

/-- Direct children with a given tag. -/
def childrenTagged (e : XElem) (t : String) : List XElem :=
  e.children.filter (fun c => c.tag == t)

/-- The grandchildren reached by the xpath `/root:rootTag/mid/leaf`: the
absolute path matches only when the document root carries `rootTag`. -/
def xpath2 (root : XElem) (rootTag mid leaf : String) : List XElem :=
  if root.tag == rootTag then
    (childrenTagged root mid).flatMap (fun c => childrenTagged c leaf)
  else []

/-- Serializing with `ET.tostring` and parsing back with `ET.fromstring` is the identity on the tree
shape, the tags, the attributes and on non-empty text, but an element
serialized with empty text (`elem.text = ""`) parses back with
`elem.text is None`.  `xmlCanon` is that canonicalization. -/
def xmlCanonText : Option String → Option String
  | some "" => none
  | t => t

mutual
def xmlCanon : XElem → XElem
  | .mk t a tx ch => .mk t a (xmlCanonText tx) (xmlCanonList ch)
def xmlCanonList : List XElem → List XElem
  | [] => []
  | e :: es => xmlCanon e :: xmlCanonList es
end

/-! ## Properties and nodes -/

/-- The value of a Python attribute that the decoder leaves as `None`,
sets to a `bool`, or leaves as a (falsy, empty) string.
`Node.build_node` stores `None` in `read_only` when the `readOnly`
attribute is absent, a `bool` when it is a non-empty string, and the
string itself when it is empty (`if prop_ro:` is false for `''`). -/
inductive PyRO where
  | undef
  | bool (b : Bool)
  | str (s : String)
deriving DecidableEq

/-- Models `Property` (model.py 35-53) and its subclass `DeleteProperty`
(56-58), distinguished by `is_delete`.  `Property.__eq__` compares only
`uri` and `value`, which `propValEq` below implements. -/
structure Property where
  uri : String
  value : Option String
  read_only : PyRO
  is_delete : Bool
deriving DecidableEq

/-- Models `Property.__eq__`: `(uri, value)` only. -/
def propValEq (a b : Property) : Bool :=
  a.uri == b.uri && a.value == b.value

/-- The six `xsi:type` tokens of the closed node taxonomy. -/
inductive NType where
  | node
  | dataNode
  | unstructuredDataNode
  | structuredDataNode
  | containerNode
  | linkNode
deriving DecidableEq

def typeText : NType → String
  | .node => "vos:Node"
  | .dataNode => "vos:DataNode"
  | .unstructuredDataNode => "vos:UnstructuredDataNode"
  | .structuredDataNode => "vos:StructuredDataNode"
  | .containerNode => "vos:ContainerNode"
  | .linkNode => "vos:LinkNode"

/-- A node of any of the six variants.  `busy` is carried by the
`DataNode` family, `target` by `LinkNode` (`none` elsewhere), `children`
by `ContainerNode` (`[]` elsewhere); `accepts` and `provides` hold view
URIs.  The Python classes also carry `capabilities`, which the codec
neither emits nor parses and no claim mentions, so it is omitted. -/
inductive PyNode where
  | mk (path : String) (ntype : NType) (props : List Property) (busy : Bool)
       (accepts : List String) (provides : List String)
       (target : Option String) (children : List PyNode)

def PyNode.path : PyNode → String
  | .mk p _ _ _ _ _ _ _ => p

def PyNode.ntype : PyNode → NType
  | .mk _ t _ _ _ _ _ _ => t

def PyNode.props : PyNode → List Property
  | .mk _ _ ps _ _ _ _ _ => ps

def PyNode.busy : PyNode → Bool
  | .mk _ _ _ b _ _ _ _ => b

def PyNode.accepts : PyNode → List String
  | .mk _ _ _ _ a _ _ _ => a

def PyNode.provides : PyNode → List String
  | .mk _ _ _ _ _ p _ _ => p

def PyNode.target : PyNode → Option String
  | .mk _ _ _ _ _ _ t _ => t

def PyNode.children : PyNode → List PyNode
  | .mk _ _ _ _ _ _ _ c => c

def PyNode.withProps : PyNode → List Property → PyNode
  | .mk p t _ b a pr tg ch, ps => .mk p t ps b a pr tg ch

def PyNode.withTarget : PyNode → Option String → PyNode
  | .mk p t ps b a pr _ ch, tg => .mk p t ps b a pr tg ch

def PyNode.withViews : PyNode → List String → List String → PyNode
  | .mk p t ps b _ _ tg ch, a, pr => .mk p t ps b a pr tg ch

def PyNode.withChildren : PyNode → List PyNode → PyNode
  | .mk p t ps b a pr tg _, ch => .mk p t ps b a pr tg ch

/-- Models `Node.sort_properties` (model.py 220-221): a stable sort of the
property list keyed on `uri`.  Python's `list.sort` is stable, and any
two stable sorts with the same key agree, so the stable
`List.insertionSort` gives the same list `timsort` produces. -/
def sortProps (ps : List Property) : List Property :=
  List.insertionSort (fun a b => chLe a.uri.data b.uri.data = true) ps

/-- Models `ContainerNode.sort_nodes` (model.py 456-457): stable sort keyed on
`path`. -/
def sortNodes (ns : List PyNode) : List PyNode :=
  List.insertionSort (fun a b => chLe a.path.data b.path.data = true) ns

/-! ## Decoding nodes: `Node.create_node`, `build_node`, `Node.fromstring` -/

/-- Models `Node.create_node` (model.py 223-238): dispatch on the `type` token.
Each branch runs the variant's constructor on the `uri` attribute (which
may be missing, hence `Option`), and the constructor parses the path via
`uri_to_path`.  `vos:LinkNode` is built with `target=None` and no busy
flag; `vos:Node` ignores the busy flag.  Any other token (including a
missing one) raises `InvalidURI('Unknown node type.')`. -/
def pyCreateNode (uri : Option String) (ty : Option String) (busy : Bool) :
    Except VErr PyNode :=
  if ty = some "vos:Node" then do
    let p ← uri_to_path uri
    .ok (.mk p .node [] false [] [] none [])
  else if ty = some "vos:DataNode" then do
    let p ← uri_to_path uri
    .ok (.mk p .dataNode [] busy [] [] none [])
  else if ty = some "vos:UnstructuredDataNode" then do
    let p ← uri_to_path uri
    .ok (.mk p .unstructuredDataNode [] busy [] [] none [])
  else if ty = some "vos:StructuredDataNode" then do
    let p ← uri_to_path uri
    .ok (.mk p .structuredDataNode [] busy [] [] none [])
  else if ty = some "vos:ContainerNode" then do
    let p ← uri_to_path uri
    .ok (.mk p .containerNode [] busy [] [] none [])
  else if ty = some "vos:LinkNode" then do
    let p ← uri_to_path uri
    .ok (.mk p .linkNode [] false [] [] none [])
  else .error (.invalidURI "Unknown node type.")

/-- One `<property>` element (model.py 197-216): `uri` is required;
a present `xsi:nil` attribute (any value) selects `DeleteProperty(uri)`,
which stores `value=None, read_only=False`; otherwise `readOnly` is left
`None` when absent, kept as the falsy `''` when empty, and otherwise
converted to `text == 'true'`; the element text becomes the value. -/
def parseProp (e : XElem) : Except VErr Property :=
  match attrGet e "uri" with
  | none => .error (.invalidURI "Property URI does not exist.")
  | some u =>
    match attrGet e "xsi:nil" with
    | some _ => .ok ⟨u, none, .bool false, true⟩
    | none =>
      .ok ⟨u, e.text,
        (match attrGet e "readOnly" with
         | none => .undef
         | some s => if s = "" then .str "" else .bool (s == "true")), false⟩

/-- The `<properties>/<property>` grandchildren matched by the xpath
`/vos:node/vos:properties/vos:property`. -/
def propElems (root : XElem) : List XElem :=
  xpath2 root "vos:node" "vos:properties" "vos:property"

/-- One `<view>` element of `<accepts>` or `<provides>`: required `uri`
(model.py 371-381). -/
def parseView (kind : String) (e : XElem) : Except VErr String :=
  match attrGet e "uri" with
  | none => .error (.invalidURI (kind ++ " URI does not exist."))
  | some u => .ok u

/-- One header-only child of `<nodes>` (model.py 461-470): its `uri` and
`type` attributes feed `Node.create_node`; the busy flag is read from the
attributes of the CONTAINER root element (the source reads
`root.attrib.get('busy', 'false')` inside the child loop). -/
def parseChild (root : XElem) (e : XElem) : Except VErr PyNode :=
  pyCreateNode (attrGet e "uri") (attrGet e "xsi:type")
    ((attrGet root "busy").getD "false" == "true")

/-- A Python `for` loop that collects results and propagates the first
raised exception. -/
def mapME (f : α → Except VErr β) : List α → Except VErr (List β)
  | [] => .ok []
  | a :: as => do
    let b ← f a
    let bs ← mapME f as
    .ok (b :: bs)

/-- The variant-dispatched `build_node` step of decoding (model.py:
`Node.build_node` 196-218, `LinkNode.build_node` 329-334,
`DataNode._build_node` 368-381, `ContainerNode.build_node` 459-471).
All variants first collect and sort the properties.  Plain `Node`,
`DataNode`, `UnstructuredDataNode` and `StructuredDataNode` all resolve
`build_node` to `Node.build_node` (neither `DataNode` nor its two leaf
refinements override it with view parsing), so only `ContainerNode`
parses `accepts`/`provides` views and its header-only children, and only
`LinkNode` requires a `<target>` child. -/
def pyBuildNode (n : PyNode) (root : XElem) : Except VErr PyNode := do
  let ps ← mapME parseProp (propElems root)
  let base := n.withProps (sortProps ps)
  match n.ntype with
  | .linkNode =>
    match findChild root "vos:target" with
    | none => .error (.invalidURI "LinkNode target does not exist.")
    | some t => .ok (base.withTarget t.text)
  | .containerNode => do
    let acc ← mapME (parseView "Accepts") (xpath2 root "vos:node" "vos:accepts" "vos:view")
    let prov ← mapME (parseView "Provides") (xpath2 root "vos:node" "vos:provides" "vos:view")
    let cs ← mapME (parseChild root) (xpath2 root "vos:node" "vos:nodes" "vos:node")
    .ok ((base.withViews acc prov).withChildren (sortNodes cs))
  | _ => .ok base

/-- Models `Node.fromstring` (model.py 240-252).  The argument is `none` when
`ET.fromstring` fails on malformed XML, in which case lxml's
`XMLSyntaxError` escapes before any attribute is read. -/
def nodeFromstring (inp : Option XElem) : Except VErr PyNode :=
  match inp with
  | none => .error .xmlSyntaxError
  | some root => do
    let uri := attrGet root "uri"
    let ty := attrGet root "xsi:type"
    let busy := (attrGet root "busy").getD "false" == "true"
    let n ← pyCreateNode uri ty busy
    pyBuildNode n root

/-! ## Encoding nodes: `Node.toxml` / `tostring` -/

/-- Models `Node.to_uri` (model.py 278-279) with `Node.SPACE = 'icrar.org'`. -/
def toUri (n : PyNode) : String := "vos://icrar.org!vospace/" ++ n.path

/-- Models `str(x).lower()` applied to the stored `read_only` before it is
written to the `readOnly` attribute (model.py 295): Python renders
`True`/`False`/`None` as `'true'`/`'false'`/`'none'`, and lower-cases a
kept string unchanged (the only kept string is `''`). -/
def roText : PyRO → String
  | .undef => "none"
  | .bool true => "true"
  | .bool false => "false"
  | .str s => String.mk (s.data.map Char.toLower)

/-- One serialized `<property>` (model.py 292-298): `uri` and `readOnly`
attributes, the value as text, plus `xsi:nil="true"` for a
`DeleteProperty`. -/
def propToXml (p : Property) : XElem :=
  .mk "vos:property"
    ([("uri", p.uri), ("readOnly", roText p.read_only)] ++
     (if p.is_delete then [("xsi:nil", "true")] else []))
    p.value []

/-- Models `Node.toxml` (model.py 285-299): the `<node>` root with its `type`
and `uri` attributes and, when the property list is non-empty, one
`<properties>` child holding the serialized properties. -/
def baseToXml (n : PyNode) : XElem :=
  .mk "vos:node"
    [("xsi:type", typeText n.ntype), ("uri", toUri n)] none
    (if n.props.isEmpty then []
     else [.mk "vos:properties" [] none (n.props.map propToXml)])

/-- A header-only `<node>` child of `<nodes>` (model.py 492-495): only
`uri` and `type`. -/
def headerXml (c : PyNode) : XElem :=
  .mk "vos:node" [("uri", toUri c), ("xsi:type", typeText c.ntype)] none []

/-- The variant-dispatched `tostring` (model.py: `Node.tostring` 281-283,
`LinkNode.tostring` 336-339, `DataNode.tostring` 417-420,
`ContainerNode.tostring` 489-496).  `DataNode.tostring` (also used by the
two leaf refinements) adds the `busy` attribute; `LinkNode.tostring`
appends the `<target>` element; `ContainerNode.tostring` calls
`Node.toxml` directly (so emits no `busy` attribute) and appends a
`<nodes>` element with header-only children.  `accepts`/`provides` views
are never serialized. -/
def nodeTostring (n : PyNode) : XElem :=
  let base := baseToXml n
  match n.ntype with
  | .node => base
  | .linkNode =>
    .mk base.tag base.attrs base.text
      (base.children ++ [.mk "vos:target" [] n.target []])
  | .containerNode =>
    .mk base.tag base.attrs base.text
      (base.children ++ [.mk "vos:nodes" [] none (n.children.map headerXml)])
  | _ =>
    .mk base.tag (base.attrs ++ [("busy", if n.busy then "true" else "false")])
      base.text base.children

/-! ## Transfers: `Transfer.fromstring` / `tostring` -/

/-- A `Protocol` entry (model.py 80-127): one of the four registry URIs,
optionally carrying an `Endpoint`.  The endpoint's url is itself optional
because `Endpoint(endpoint_elem[0].text)` stores `None` for an empty
serialized `<endpoint>`. -/
structure PyProtocol where
  uri : String
  endpoint : Option (Option String)
deriving DecidableEq

/-- The four concrete `Transfer` variants (model.py 648-739).  The
`target` field holds the target node's parsed path (`str(Node)` is the
path); `Copy`/`Move` also hold the destination path, and fix
`keep_bytes` to `true`/`false` respectively. -/
inductive PyTransfer where
  | pushToSpace (target : String) (protocols : List PyProtocol) (view : Option String)
  | pullFromSpace (target : String) (protocols : List PyProtocol) (view : Option String)
  | copy (target : String) (direction : String)
  | move (target : String) (direction : String)
deriving DecidableEq

/-- Models `Transfer.create_node` (model.py 591-604): dispatch on the direction
text.  `pushToVoSpace`/`pullFromVoSpace` build protocol transfers with an
empty protocol list and no view; `pushFromVoSpace`/`pullToVoSpace` raise
`NotImplementedError`; any other direction (a peer node path, or a
missing element text) is a node transfer — `Copy` when `keep_bytes` is
truthy, else `Move` — whose target and destination both go through
`Node(...)`, hence `uri_to_path`. -/
def transferCreateNode (target : Option String) (dir : Option String)
    (keepBytes : Bool) : Except VErr PyTransfer :=
  if dir = some "pushToVoSpace" then do
    let p ← uri_to_path target
    .ok (.pushToSpace p [] none)
  else if dir = some "pullFromVoSpace" then do
    let p ← uri_to_path target
    .ok (.pullFromSpace p [] none)
  else if dir = some "pushFromVoSpace" then .error .notImplementedError
  else if dir = some "pullToVoSpace" then .error .notImplementedError
  else do
    let p ← uri_to_path target
    let q ← uri_to_path dir
    .ok (if keepBytes then .copy p q else .move p q)

/-- One `<protocol>` element (model.py 707-723): optional `<endpoint>`
child; the `uri` attribute must be one of the four registry URIs, and a
missing or unknown uri raises `InvalidURI('unknown protocol')`. -/
def parseProtocol (e : XElem) : Except VErr PyProtocol :=
  let endpoint : Option (Option String) :=
    match childrenTagged e "vos:endpoint" with
    | [] => none
    | ep :: _ => some ep.text
  match attrGet e "uri" with
  | some "ivo://ivoa.net/vospace/core#httpput" =>
    .ok ⟨"ivo://ivoa.net/vospace/core#httpput", endpoint⟩
  | some "ivo://ivoa.net/vospace/core#httpget" =>
    .ok ⟨"ivo://ivoa.net/vospace/core#httpget", endpoint⟩
  | some "ivo://ivoa.net/vospace/core#httpsput" =>
    .ok ⟨"ivo://ivoa.net/vospace/core#httpsput", endpoint⟩
  | some "ivo://ivoa.net/vospace/core#httpsget" =>
    .ok ⟨"ivo://ivoa.net/vospace/core#httpsget", endpoint⟩
  | _ => .error (.invalidURI "unknown protocol")

/-- The children reached by a one-level absolute xpath
`/rootTag/leaf`. -/
def xpath1 (root : XElem) (rootTag leaf : String) : List XElem :=
  if root.tag == rootTag then childrenTagged root leaf else []

/-- The `build_node` step of transfer decoding.  `Copy.build_node` and
`Move.build_node` (model.py 654-665) do nothing.
`ProtocolTransfer.build_node` (702-723) first evaluates the xpath
`/vos:transfer/vos:view` — and when the result list is non-empty the
source immediately reads `view_elem.attrib` on the LIST object
(`view_elem.attrib.get('uri', None)`, model.py 705), which raises
`AttributeError`: a serialized view can never be decoded.  With no view
element, the `<protocol>` elements are parsed and appended. -/
def transferBuild (t : PyTransfer) (root : XElem) : Except VErr PyTransfer :=
  match t with
  | .copy _ _ => .ok t
  | .move _ _ => .ok t
  | .pushToSpace tgt ps v =>
    if (xpath1 root "vos:transfer" "vos:view").isEmpty then do
      let prots ← mapME parseProtocol (xpath1 root "vos:transfer" "vos:protocol")
      .ok (.pushToSpace tgt (ps ++ prots) v)
    else .error .attributeError
  | .pullFromSpace tgt ps v =>
    if (xpath1 root "vos:transfer" "vos:view").isEmpty then do
      let prots ← mapME parseProtocol (xpath1 root "vos:transfer" "vos:protocol")
      .ok (.pullFromSpace tgt (ps ++ prots) v)
    else .error .attributeError

/-- Models `Transfer.fromstring` (model.py 606-625): require a
`/vos:transfer/vos:target` and a `/vos:transfer/vos:direction` element;
an optional `/vos:transfer/vos:keepBytes` must read `'false'` or
`'true'` (anything else raises `InvalidURI('keepBytes invalid')`, and a
missing element leaves the falsy empty list).  The first target's and
first direction's texts feed `Transfer.create_node`, and `build_node`
finishes the variant. -/
def transferFromstring (inp : Option XElem) : Except VErr PyTransfer :=
  match inp with
  | none => .error .xmlSyntaxError
  | some root =>
    match xpath1 root "vos:transfer" "vos:target" with
    | [] => .error (.invalidURI "target not found")
    | tgt :: _ =>
      match xpath1 root "vos:transfer" "vos:direction" with
      | [] => .error (.invalidURI "direction not found")
      | dir :: _ => do
        let kb : Bool ←
          match xpath1 root "vos:transfer" "vos:keepBytes" with
          | [] => .ok false
          | kbe :: _ =>
            if kbe.text = some "false" then .ok false
            else if kbe.text = some "true" then .ok true
            else .error (.invalidURI "keepBytes invalid")
        let t ← transferCreateNode tgt.text dir.text kb
        transferBuild t root

/-- The direction text a transfer serializes: the fixed token for the
protocol transfers, the destination path for the node transfers
(`str(self.direction)` of a `Node`). -/
def transferDirectionText : PyTransfer → String
  | .pushToSpace _ _ _ => "pushToVoSpace"
  | .pullFromSpace _ _ _ => "pullFromVoSpace"
  | .copy _ d => d
  | .move _ d => d

def transferTargetText : PyTransfer → String
  | .pushToSpace t _ _ => t
  | .pullFromSpace t _ _ => t
  | .copy t _ => t
  | .move t _ => t

/-- One serialized `<protocol>` (model.py 694-699): the `uri` attribute
and, when an `Endpoint` object is attached, an `<endpoint>` child with
its url as text. -/
def protocolToXml (p : PyProtocol) : XElem :=
  .mk "vos:protocol" [("uri", p.uri)] none
    (match p.endpoint with
     | none => []
     | some u => [.mk "vos:endpoint" [] u []])

/-- The variant-dispatched `Transfer` serialization (model.py:
`Transfer.toxml` 579-585, `NodeTransfer.tostring` 637-645,
`ProtocolTransfer.tostring` 689-700): the `<transfer>` root holds
`<target>` and `<direction>`; `Copy`/`Move` append `<keepBytes>`;
`PushToSpace`/`PullFromSpace` append an optional `<view>` (with `uri`
attribute) and the `<protocol>` elements. -/
def transferTostring (t : PyTransfer) : XElem :=
  let base : List XElem :=
    [.mk "vos:target" [] (some (transferTargetText t)) [],
     .mk "vos:direction" [] (some (transferDirectionText t)) []]
  match t with
  | .copy _ _ =>
    .mk "vos:transfer" [] none (base ++ [.mk "vos:keepBytes" [] (some "true") []])
  | .move _ _ =>
    .mk "vos:transfer" [] none (base ++ [.mk "vos:keepBytes" [] (some "false") []])
  | .pushToSpace _ prots v =>
    .mk "vos:transfer" [] none
      (base ++
       (match v with
        | none => []
        | some u => [.mk "vos:view" [("uri", u)] none []]) ++
       prots.map protocolToXml)
  | .pullFromSpace _ prots v =>
    .mk "vos:transfer" [] none
      (base ++
       (match v with
        | none => []
        | some u => [.mk "vos:view" [("uri", u)] none []]) ++
       prots.map protocolToXml)

/-! ## Node constructors, `set_properties`, `set_nodes`, `add_node` -/

/-- The Python node constructors (model.py 154-164, 302-312, 342-357,
423-441, 499-513, 528-542) with an empty property list: the path goes
through `Node.uri_to_path`, the type tag is fixed by the class, the
`DataNode` family stores `busy`, `LinkNode` stores its `target`
argument. -/
def pyNodeCtor (uri : String) (t : NType) (busy : Bool)
    (target : Option String) : Except VErr PyNode := do
  let p ← uri_to_path (some uri)
  .ok (.mk p t [] (match t with
                   | .node | .linkNode => false
                   | _ => busy) [] []
        (match t with
         | .linkNode => target
         | _ => none) [])

/-- Models `ContainerNode.set_nodes` (model.py 473-480): every element must be
a `Node` whose path passes `node.path.startswith(self.path)` — a plain
string-prefix test with no separator requirement — otherwise the
`assert` raises (modelled as `none`); the accepted list is deep-copied
into `_nodes` and sorted when `sort=True`. -/
def pySetNodes (c : PyNode) (l : List PyNode) (sort : Bool) : Option PyNode :=
  if l.all (fun n => strStartswith n.path c.path) then
    some (c.withChildren (if sort then sortNodes l else l))
  else none

/-- Models `ContainerNode.add_node` (model.py 482-487): the same plain
string-prefix `assert`, then append (and sort when asked). -/
def pyAddNode (c : PyNode) (v : PyNode) (sort : Bool) : Option PyNode :=
  if strStartswith v.path c.path then
    some (c.withChildren
      (if sort then sortNodes (c.children ++ [v]) else c.children ++ [v]))
  else none

/-! ## An object store for the deep-copy claims

Python `Node`/`ContainerNode` hold lists of references to mutable
`Property`/`Node` objects.  `Store α` models the object heap: `next` is
the first unallocated address and `cell` maps every address to the value
it holds.  `copy.deepcopy` of a reference list allocates a fresh cell per
element, copying the value — `allocList` below — which is exactly what
`set_properties` (model.py 261-267) and `set_nodes` (473-480) do to the
caller's list before storing it. -/

structure Store (α : Type) where
  next : Nat
  cell : Nat → α

/-- Mutate the object at address `j` in place. -/
def Store.write (s : Store α) (j : Nat) (v : α) : Store α :=
  ⟨s.next, Function.update s.cell j v⟩

/-- Allocate one fresh object per value, in order. -/
def allocList : Store α → List α → Store α × List Nat
  | s, [] => (s, [])
  | s, v :: vs =>
    let r := allocList ⟨s.next + 1, Function.update s.cell s.next v⟩ vs
    (r.1, s.next :: r.2)

/-- Dereference a list of addresses. -/
def readRefs (s : Store α) (refs : List Nat) : List α :=
  refs.map s.cell

/-- Models `Node.set_properties` (model.py 261-267) on the heap: the node's
`_properties` becomes a deep copy of the argument list — fresh cells
holding the values the argument's references point at. -/
def pySetPropertiesHeap (s : Store Property) (arg : List Nat) :
    Store Property × List Nat :=
  allocList s (readRefs s arg)

/-- The deep-copy step of `ContainerNode.set_nodes` (model.py 478) on
the heap. -/
def pySetNodesHeap (s : Store PyNode) (arg : List Nat) :
    Store PyNode × List Nat :=
  allocList s (readRefs s arg)

/-! ## The dispatcher: `view.py` -/

/-- Models Python `int(s)` for the decimal strings the dispatcher can
meet: surrounding ASCII whitespace is stripped, an optional sign
precedes the digits; anything else raises `ValueError` (`none` here).
(Python also accepts underscore digit grouping, which no caller here
uses.) -/
def pyInt? (s : String) : Option Int :=
  let ws : Char → Bool := fun c => c = ' ' || c = '\t' || c = '\n' || c = '\r'
  let cs := (s.data.dropWhile ws).reverse.dropWhile ws |>.reverse
  let digits : List Char → Option Nat := fun ds =>
    if ds.isEmpty then none
    else if ds.all Char.isDigit then
      some (ds.foldl (fun acc c => acc * 10 + (c.toNat - '0'.toNat)) 0)
    else none
  match cs with
  | '-' :: rest => (digits rest).map (fun n => -(n : Int))
  | '+' :: rest => (digits rest).map (fun n => (n : Int))
  | _ => (digits cs).map (fun n => (n : Int))

def PyNode.isContainer (n : PyNode) : Bool := n.ntype == .containerNode

/-- The query-validation and post-read steps of `get_node_request`
(view.py 46-79), given the node the database read returned (the
database and storage-backend collaborators are outside this model; the
`accepts`/`provides` population for `detail=max` touches neither
properties nor children).  `detail` defaults to `'max'` and, when
non-empty, must be `min`/`max`/`properties`; a non-empty `limit` must
parse as a positive int, else `InvalidURI` (HTTP 400).  For `detail=min`
the properties are dropped.  When the node is a `ContainerNode` and a
limit was given, the source executes `node.nodes = node.nodes[:limit]`
— but `ContainerNode.nodes` (model.py 448-450) is a property with no
setter, so the assignment raises `AttributeError`. -/
def getNodeRequest (detailOpt limitOpt : Option String) (node : PyNode) :
    Except VErr PyNode := do
  let detail := detailOpt.getD "max"
  let _ ← (if detail ≠ "" ∧ detail ∉ ["min", "max", "properties"] then
             .error (.invalidURI ("detail invalid: " ++ detail))
           else .ok () : Except VErr Unit)
  let lim : Option Int ←
    (match limitOpt with
     | none => .ok none
     | some s =>
       if s = "" then .ok none
       else
         match pyInt? s with
         | none => .error (.invalidURI ("limit invalid: " ++ s))
         | some i =>
           if i ≤ 0 then .error (.invalidURI ("limit invalid: " ++ s))
           else .ok (some i) : Except VErr (Option Int))
  let node := if detail == "min" then node.withProps [] else node
  if node.isContainer ∧ lim ≠ none then .error .attributeError
  else .ok node

/-- The transfer-construction step of `sync_transfer_request`
(view.py 140-172).  The query branch builds the transfer with
`Transfer.create_transfer(target=..., direction=..., keep_bytes=False)`
— the `Transfer` classmethod of that signature in this repository's
model is `Transfer.create_node` — and the body branch reaches the same
classmethod through `Transfer.fromstring`; in both branches a falsy
`keep_bytes` flows into the node-transfer arm.  No branch inspects the
direction for a node-to-node path. -/
def syncTransferConstruct (target direction : Option String) :
    Except VErr PyTransfer :=
  transferCreateNode target direction false

/-- Modelled from the spec: the `UWSPhase` enumeration is imported by
`view.py` from `pyvospace.core.model` but is not among the provided
source files.  Spec section 3.5 orders the phases
`PENDING < QUEUED < EXECUTING < COMPLETED` with the side exits
`ABORTED` and `ERROR`; the standard UWS numbering places the side exits
after `COMPLETED`, so that `phase < EXECUTING` selects exactly
`PENDING` and `QUEUED`. -/
def UWSPhase.Pending : Nat := 0

/-- Modelled from the spec: see `UWSPhase.Pending`. -/
def UWSPhase.Queued : Nat := 1

/-- Modelled from the spec: see `UWSPhase.Pending`. -/
def UWSPhase.Executing : Nat := 2

/-- Modelled from the spec: see `UWSPhase.Pending`. -/
def UWSPhase.Completed : Nat := 3

/-- Modelled from the spec: a UWS job row as
`get_transfer_details_request` reads it (`owner`, `phase`,
`transfer`): the job table itself lives in the executor, outside the
provided sources.  The stored `transfer` column is the transferDetails
XML text, `none` when NULL. -/
structure UWSJob where
  owner : String
  phase : Nat
  transfer : Option String

/-- Models `get_transfer_details_request` (view.py 186-198), given the
identity resolved by the auth middleware (`none` when absent) and the
job row the executor returned: permission, then
`job['phase'] < UWSPhase.Executing` raises `InvalidJobStateError`, then
a falsy stored transfer (NULL or empty) raises a 400 `VOSpaceError`,
else the stored transferDetails text is returned. -/
def getTransferDetailsRequest (identity : Option String) (job : UWSJob) :
    Except VErr String :=
  match identity with
  | none => .error (.permissionDenied "Credentials not found.")
  | some who =>
    if who ≠ job.owner then
      .error (.permissionDenied (who ++ " is not the owner of the job."))
    else if job.phase < UWSPhase.Executing then
      .error (.invalidJobStateError "Job not EXECUTING")
    else
      match job.transfer with
      | none => .error (.voSpaceError 400 "No transferDetails for this job.")
      | some "" => .error (.voSpaceError 400 "No transferDetails for this job.")
      | some t => .ok t

/-! ## Helper lemmas -/

theorem PyNode.props_withProps (n : PyNode) (ps : List Property) :
    (n.withProps ps).props = ps := by cases n; rfl

theorem PyNode.ntype_withProps (n : PyNode) (ps : List Property) :
    (n.withProps ps).ntype = n.ntype := by cases n; rfl

theorem PyNode.props_withTarget (n : PyNode) (t : Option String) :
    (n.withTarget t).props = n.props := by cases n; rfl

theorem PyNode.props_withViews (n : PyNode) (a p : List String) :
    (n.withViews a p).props = n.props := by cases n; rfl

theorem PyNode.props_withChildren (n : PyNode) (cs : List PyNode) :
    (n.withChildren cs).props = n.props := by cases n; rfl

instance : IsTotal Property (fun a b => chLe a.uri.data b.uri.data = true) :=
  ⟨fun a b => chLe_total a.uri.data b.uri.data⟩

instance : IsTrans Property (fun a b => chLe a.uri.data b.uri.data = true) :=
  ⟨fun _ _ _ => chLe_trans⟩

theorem sortProps_sorted (ps : List Property) :
    (sortProps ps).Pairwise (fun a b => chLe a.uri.data b.uri.data = true) :=
  List.sorted_insertionSort _ ps

theorem except_bind_error {α β : Type} {x : Except VErr α} {f : α → Except VErr β}
    {e : VErr} (h : (x >>= f) = .error e) :
    x = .error e ∨ ∃ a, x = .ok a ∧ f a = .error e := by
  cases x with
  | error e2 =>
    left
    simpa [Bind.bind, Except.bind] using h
  | ok a =>
    right
    exact ⟨a, rfl, by simpa [Bind.bind, Except.bind] using h⟩

theorem except_bind_ok {α β : Type} {x : Except VErr α} {f : α → Except VErr β}
    {b : β} (h : (x >>= f) = .ok b) : ∃ a, x = .ok a ∧ f a = .ok b := by
  cases x with
  | error e => simp [Bind.bind, Except.bind] at h
  | ok a => exact ⟨a, rfl, by simpa [Bind.bind, Except.bind] using h⟩

/-- Every exception `uri_to_path` raises is an `InvalidURI`. -/
theorem uriToPathCore_error {p : String} {e : VErr}
    (h : uriToPathCore p = .error e) : ∃ m, e = .invalidURI m := by
  unfold uriToPathCore at h
  split at h
  · injection h with h2
    exact ⟨_, h2.symm⟩
  · split at h
    · injection h with h2
      exact ⟨_, h2.symm⟩
    · exact Except.noConfusion h

theorem uri_to_path_error {u : Option String} {e : VErr}
    (h : uri_to_path u = .error e) : ∃ m, e = .invalidURI m :=
  uriToPathCore_error h

/-- Every exception `Node.create_node` raises is an `InvalidURI`. -/
theorem pyCreateNode_error {u ty : Option String} {b : Bool} {e : VErr}
    (h : pyCreateNode u ty b = .error e) : ∃ m, e = .invalidURI m := by
  unfold pyCreateNode at h
  repeat
    first
    | (rcases except_bind_error h with h1 | ⟨a, ha, h2⟩
       · exact uri_to_path_error h1
       · exact Except.noConfusion h2)
    | (injection h with h2; exact ⟨_, h2.symm⟩)
    | split at h

theorem parseProp_error {e : XElem} {er : VErr}
    (h : parseProp e = .error er) : ∃ m, er = .invalidURI m := by
  unfold parseProp at h
  split at h
  · injection h with h2
    exact ⟨_, h2.symm⟩
  · split at h <;> exact Except.noConfusion h

theorem parseView_error {k : String} {e : XElem} {er : VErr}
    (h : parseView k e = .error er) : ∃ m, er = .invalidURI m := by
  unfold parseView at h
  split at h
  · injection h with h2
    exact ⟨_, h2.symm⟩
  · exact Except.noConfusion h

theorem parseChild_error {root e : XElem} {er : VErr}
    (h : parseChild root e = .error er) : ∃ m, er = .invalidURI m :=
  pyCreateNode_error h

theorem mapME_error {α β : Type} {f : α → Except VErr β} {e : VErr}
    (hf : ∀ x er, f x = .error er → ∃ m, er = .invalidURI m) :
    ∀ {l : List α}, mapME f l = .error e → ∃ m, e = .invalidURI m := by
  intro l
  induction l with
  | nil => intro h; exact Except.noConfusion h
  | cons a as ih =>
    intro h
    unfold mapME at h
    rcases except_bind_error h with h1 | ⟨b, _, h2⟩
    · exact hf a e h1
    · rcases except_bind_error h2 with h3 | ⟨bs, _, h4⟩
      · exact ih h3
      · exact Except.noConfusion h4

/-- Unfolding lemma: `pyBuildNode` written as one explicit bind, for rewriting. -/
theorem pyBuildNode_eq (n : PyNode) (root : XElem) :
    pyBuildNode n root =
      mapME parseProp (propElems root) >>= fun ps =>
        match n.ntype with
        | .linkNode =>
          (match findChild root "vos:target" with
           | none => .error (.invalidURI "LinkNode target does not exist.")
           | some t => .ok ((n.withProps (sortProps ps)).withTarget t.text))
        | .containerNode =>
          (mapME (parseView "Accepts") (xpath2 root "vos:node" "vos:accepts" "vos:view")
            >>= fun acc =>
           mapME (parseView "Provides") (xpath2 root "vos:node" "vos:provides" "vos:view")
            >>= fun prov =>
           mapME (parseChild root) (xpath2 root "vos:node" "vos:nodes" "vos:node")
            >>= fun cs =>
           .ok (((n.withProps (sortProps ps)).withViews acc prov).withChildren (sortNodes cs)))
        | _ => .ok (n.withProps (sortProps ps)) := rfl

/-- Every exception the `build_node` step raises is an `InvalidURI`. -/
theorem pyBuildNode_error {n : PyNode} {root : XElem} {e : VErr}
    (h : pyBuildNode n root = .error e) : ∃ m, e = .invalidURI m := by
  rw [pyBuildNode_eq] at h
  rcases except_bind_error h with h1 | ⟨ps, _, h2⟩
  · exact mapME_error (fun x er he => parseProp_error he) h1
  · split at h2
    · split at h2
      · injection h2 with h3
        exact ⟨_, h3.symm⟩
      · exact Except.noConfusion h2
    · rcases except_bind_error h2 with h3 | ⟨acc, _, h4⟩
      · exact mapME_error (fun x er he => parseView_error he) h3
      · rcases except_bind_error h4 with h5 | ⟨prov, _, h6⟩
        · exact mapME_error (fun x er he => parseView_error he) h5
        · rcases except_bind_error h6 with h7 | ⟨cs, _, h8⟩
          · exact mapME_error (fun x er he => parseChild_error he) h7
          · exact Except.noConfusion h8
    · exact Except.noConfusion h2

/-- Unfolding lemma: `nodeFromstring` on parsed XML, written as one explicit bind. -/
theorem nodeFromstring_some (root : XElem) :
    nodeFromstring (some root) =
      pyCreateNode (attrGet root "uri") (attrGet root "xsi:type")
        ((attrGet root "busy").getD "false" == "true")
      >>= fun n => pyBuildNode n root := rfl

/-- Every exception `Node.fromstring` raises on XML that parses is an
`InvalidURI`. -/
theorem nodeFromstring_error {root : XElem} {e : VErr}
    (h : nodeFromstring (some root) = .error e) : ∃ m, e = .invalidURI m := by
  rw [nodeFromstring_some] at h
  rcases except_bind_error h with h1 | ⟨n, _, h2⟩
  · exact pyCreateNode_error h1
  · exact pyBuildNode_error h2

/-- With no `uri` attribute, every branch of `create_node` raises. -/
theorem pyCreateNode_none_error (ty : Option String) (b : Bool) :
    ∃ e, pyCreateNode none ty b = .error e := by
  unfold pyCreateNode
  repeat
    first
    | exact ⟨_, rfl⟩
    | split

/-- A `type` token outside the six known ones raises `Unknown node
type.`. -/
theorem pyCreateNode_unknown {u ty : Option String} {b : Bool}
    (h : ∀ t, ty = some t →
      t ∉ ["vos:Node", "vos:DataNode", "vos:UnstructuredDataNode",
           "vos:StructuredDataNode", "vos:ContainerNode", "vos:LinkNode"]) :
    pyCreateNode u ty b = .error (.invalidURI "Unknown node type.") := by
  have h1 : ty ≠ some "vos:Node" := fun he => (h _ he) (by simp)
  have h2 : ty ≠ some "vos:DataNode" := fun he => (h _ he) (by simp)
  have h3 : ty ≠ some "vos:UnstructuredDataNode" := fun he => (h _ he) (by simp)
  have h4 : ty ≠ some "vos:StructuredDataNode" := fun he => (h _ he) (by simp)
  have h5 : ty ≠ some "vos:ContainerNode" := fun he => (h _ he) (by simp)
  have h6 : ty ≠ some "vos:LinkNode" := fun he => (h _ he) (by simp)
  simp [pyCreateNode, h1, h2, h3, h4, h5, h6]

/-- Running `create_node` with the LinkNode token yields a LinkNode. -/
theorem pyCreateNode_link_ok {u : Option String} {b : Bool} {n : PyNode}
    (h : pyCreateNode u (some "vos:LinkNode") b = .ok n) :
    n.ntype = .linkNode := by
  unfold pyCreateNode at h
  simp only [Option.some.injEq, String.reduceEq, reduceIte, if_true, if_false] at h
  rcases except_bind_ok h with ⟨p, hp, h2⟩
  injection h2 with h3
  rw [← h3]
  rfl

/-! ## Claim C2 -/

/-- C2, counterexample: XML that does not parse does NOT produce a
structured invalid URI/argument error — `ET.fromstring` raises lxml's
`XMLSyntaxError`, which escapes the decoder unconverted (and which the
repository's own test `test_create_node_fail` expects to surface as
HTTP 500, not 400). -/
theorem C2_counterexample :
    nodeFromstring none = .error .xmlSyntaxError ∧
    VErr.xmlSyntaxError.isInvalidUriOrArgument = false :=
  ⟨rfl, rfl⟩

/-- C2, amended: for XML that parses, a missing `uri` attribute, an
unknown (or missing) `type` token, and a LinkNode root without a
`<target>` child each make `Node.fromstring` raise a structured
`InvalidURI` error (surfaced by the dispatcher as HTTP 400); malformed
XML, however, raises an XML syntax error that is not of the structured
kind. -/
theorem C2_amended (root : XElem)
    (h : attrGet root "uri" = none ∨
         (∀ t, attrGet root "xsi:type" = some t →
            t ∉ ["vos:Node", "vos:DataNode", "vos:UnstructuredDataNode",
                 "vos:StructuredDataNode", "vos:ContainerNode", "vos:LinkNode"]) ∨
         (attrGet root "xsi:type" = some "vos:LinkNode" ∧
            findChild root "vos:target" = none)) :
    ∃ m, nodeFromstring (some root) = .error (.invalidURI m) := by
  have herr : ∃ e, nodeFromstring (some root) = .error e := by
    rcases h with h | h | ⟨hty, htg⟩
    · rw [nodeFromstring_some, h]
      rcases pyCreateNode_none_error (attrGet root "xsi:type")
        ((attrGet root "busy").getD "false" == "true") with ⟨e, he⟩
      exact ⟨e, by rw [he]; rfl⟩
    · rw [nodeFromstring_some, pyCreateNode_unknown h]
      exact ⟨_, rfl⟩
    · rw [nodeFromstring_some, hty]
      cases hc : pyCreateNode (attrGet root "uri") (some "vos:LinkNode")
          ((attrGet root "busy").getD "false" == "true") with
      | error e => exact ⟨e, rfl⟩
      | ok n =>
        have hn := pyCreateNode_link_ok hc
        show ∃ e, pyBuildNode n root = .error e
        rw [pyBuildNode_eq]
        cases hm : mapME parseProp (propElems root) with
        | error e2 => exact ⟨e2, rfl⟩
        | ok ps =>
          show ∃ e, (match n.ntype with
            | NType.linkNode =>
              (match findChild root "vos:target" with
               | none => Except.error (VErr.invalidURI "LinkNode target does not exist.")
               | some t => Except.ok ((n.withProps (sortProps ps)).withTarget t.text))
            | NType.containerNode =>
              (mapME (parseView "Accepts") (xpath2 root "vos:node" "vos:accepts" "vos:view")
                >>= fun acc =>
               mapME (parseView "Provides") (xpath2 root "vos:node" "vos:provides" "vos:view")
                >>= fun prov =>
               mapME (parseChild root) (xpath2 root "vos:node" "vos:nodes" "vos:node")
                >>= fun cs =>
               Except.ok (((n.withProps (sortProps ps)).withViews acc prov).withChildren
                 (sortNodes cs)))
            | _ => Except.ok (n.withProps (sortProps ps))) = Except.error e
          rw [hn, htg]
          exact ⟨_, rfl⟩
  rcases herr with ⟨e, he⟩
  rcases nodeFromstring_error he with ⟨m, hm⟩
  exact ⟨m, by rw [← hm]; exact he⟩

/-- C2's amended theorem applied at three concrete documents: a root
with no `uri`, a root with the unknown token `vos:unknown` (the token
the repository's test uses), and a LinkNode root without a target. -/
theorem C2_witness :
    (∃ m, nodeFromstring (some (.mk "vos:node" [("xsi:type", "vos:Node")] none [])) =
      .error (.invalidURI m)) ∧
    (∃ m, nodeFromstring (some (.mk "vos:node"
      [("uri", "vos://icrar.org!vospace/data1"), ("xsi:type", "vos:unknown")] none [])) =
      .error (.invalidURI m)) ∧
    (∃ m, nodeFromstring (some (.mk "vos:node"
      [("uri", "vos://icrar.org!vospace/lnk"), ("xsi:type", "vos:LinkNode")] none [])) =
      .error (.invalidURI m)) :=
  ⟨C2_amended _ (Or.inl rfl),
   C2_amended _ (Or.inr (Or.inl (by intro t ht; injection ht with h2; rw [← h2]; decide))),
   C2_amended _ (Or.inr (Or.inr ⟨rfl, rfl⟩))⟩

/-! ## Claim C3 -/

/-- C3, counterexample: decoding a node whose single `<property>` has no
`readOnly` attribute yields a property whose `read_only` is Python
`None` (`build_node` passes the unconverted `None` into the `Property`
constructor), not the claimed default `True`. -/
theorem C3_counterexample :
    nodeFromstring (some (.mk "vos:node"
      [("uri", "vos://icrar.org!vospace/p"), ("xsi:type", "vos:Node")] none
      [.mk "vos:properties" [] none
        [.mk "vos:property" [("uri", "ivo://ivoa.net/vospace/core#title")]
          (some "Test") []]])) =
    .ok (.mk "p" .node
      [⟨"ivo://ivoa.net/vospace/core#title", some "Test", .undef, false⟩]
      false [] [] none []) ∧
    PyRO.undef ≠ PyRO.bool true :=
  ⟨rfl, by decide⟩

/-- C3, amended: when the `readOnly` attribute is absent the decoded
property's `read_only` is left as Python `None` (not `true`); when it is
present and non-empty, `read_only` is the boolean `text == 'true'` (an
empty attribute is kept as the falsy empty string). -/
theorem C3_amended (u : String) (txt : Option String) :
    parseProp (.mk "vos:property" [("uri", u)] txt []) =
      .ok ⟨u, txt, .undef, false⟩ ∧
    ∀ s : String, s ≠ "" →
      parseProp (.mk "vos:property" [("uri", u), ("readOnly", s)] txt []) =
        .ok ⟨u, txt, .bool (s == "true"), false⟩ := by
  refine ⟨rfl, fun s hs => ?_⟩
  have h : parseProp (.mk "vos:property" [("uri", u), ("readOnly", s)] txt []) =
      .ok ⟨u, txt, (if s = "" then .str "" else .bool (s == "true")), false⟩ := rfl
  rw [h, if_neg hs]

/-- C3's amended theorem applied at a concrete property element, with
`readOnly` absent and with `readOnly="true"`. -/
theorem C3_witness :
    parseProp (.mk "vos:property" [("uri", "u")] (some "v") []) =
      .ok ⟨"u", some "v", .undef, false⟩ ∧
    parseProp (.mk "vos:property" [("uri", "u"), ("readOnly", "true")] (some "v") []) =
      .ok ⟨"u", some "v", .bool true, false⟩ := by
  have h := C3_amended "u" (some "v")
  exact ⟨h.1, h.2 "true" (by decide)⟩

/-! ## Claim C4 -/

/-- Every successful `build_node` stores a `sort_properties`-sorted
property list. -/
theorem pyBuildNode_ok_props {n m : PyNode} {root : XElem}
    (h : pyBuildNode n root = .ok m) : ∃ ps, m.props = sortProps ps := by
  rw [pyBuildNode_eq] at h
  rcases except_bind_ok h with ⟨ps, _, h2⟩
  refine ⟨ps, ?_⟩
  split at h2
  · split at h2
    · exact Except.noConfusion h2
    · injection h2 with h3
      rw [← h3, PyNode.props_withTarget, PyNode.props_withProps]
  · rcases except_bind_ok h2 with ⟨acc, _, h4⟩
    rcases except_bind_ok h4 with ⟨prov, _, h6⟩
    rcases except_bind_ok h6 with ⟨cs, _, h8⟩
    injection h8 with h9
    rw [← h9, PyNode.props_withChildren, PyNode.props_withViews, PyNode.props_withProps]
  · injection h2 with h3
    rw [← h3, PyNode.props_withProps]

/-- C4, amended: the properties of every node `Node.fromstring` decodes
are in NON-DECREASING uri order (Python's stable sort keyed on `uri`);
the sort does not deduplicate, so two decoded properties may share a
URI and the order is not strict in general (see the counterexample). -/
theorem C4_amended (inp : Option XElem) (n : PyNode)
    (h : nodeFromstring inp = .ok n) :
    List.Pairwise (fun a b : Property => chLe a.uri.data b.uri.data = true) n.props := by
  cases inp with
  | none => exact Except.noConfusion h
  | some root =>
    rw [nodeFromstring_some] at h
    rcases except_bind_ok h with ⟨n0, _, h2⟩
    rcases pyBuildNode_ok_props h2 with ⟨ps, hps⟩
    rw [hps]
    exact sortProps_sorted ps

/-- C4, counterexample: a node document carrying two `<property>`
elements with the same `uri` decodes successfully and keeps both, so the
decoded property list is NOT strictly increasing — `sort_properties`
sorts but never rejects or merges duplicate URIs. -/
theorem C4_counterexample :
    nodeFromstring (some (.mk "vos:node"
      [("uri", "vos://icrar.org!vospace/d"), ("xsi:type", "vos:Node")] none
      [.mk "vos:properties" [] none
        [.mk "vos:property" [("uri", "a")] (some "1") [],
         .mk "vos:property" [("uri", "a")] (some "2") []]])) =
    .ok (.mk "d" .node
      [⟨"a", some "1", .undef, false⟩, ⟨"a", some "2", .undef, false⟩]
      false [] [] none []) ∧
    ¬ List.Pairwise (fun a b : Property => a.uri ≠ b.uri)
        [⟨"a", some "1", PyRO.undef, false⟩, ⟨"a", some "2", PyRO.undef, false⟩] :=
  ⟨rfl, fun h => (List.pairwise_cons.mp h).1 _ (List.mem_singleton.mpr rfl) rfl⟩

/-- C4's amended theorem applied at a concrete document whose two
properties arrive in descending uri order. -/
theorem C4_witness :
    List.Pairwise (fun a b : Property => chLe a.uri.data b.uri.data = true)
      (PyNode.props (.mk "d" .node
        [⟨"a", some "2", .undef, false⟩, ⟨"b", some "1", .undef, false⟩]
        false [] [] none [])) :=
  C4_amended (some (.mk "vos:node"
      [("uri", "vos://icrar.org!vospace/d"), ("xsi:type", "vos:Node")] none
      [.mk "vos:properties" [] none
        [.mk "vos:property" [("uri", "b")] (some "1") [],
         .mk "vos:property" [("uri", "a")] (some "2") []]]))
    (.mk "d" .node
      [⟨"a", some "2", .undef, false⟩, ⟨"b", some "1", .undef, false⟩]
      false [] [] none []) rfl

/-! ## Claim C6 -/

/-- C7, counterexample: `ContainerNode.add_node` accepts the node at
path `ab` into the container at path `a` — the `assert
value.path.startswith(self.path)` is a plain string-prefix test, so a
child that merely extends the container's last segment is NOT
rejected, although `ab` does not start with `a` followed by a
separator. -/
theorem C7_counterexample :
    pyNodeCtor "/a" .containerNode false none =
      .ok (.mk "a" .containerNode [] false [] [] none []) ∧
    pyNodeCtor "/ab" .node false none =
      .ok (.mk "ab" .node [] false [] [] none []) ∧
    pyAddNode (.mk "a" .containerNode [] false [] [] none [])
        (.mk "ab" .node [] false [] [] none []) false =
      some (.mk "a" .containerNode [] false [] [] none
        [.mk "ab" .node [] false [] [] none []]) ∧
    strStartswith "ab" "a/" = false :=
  ⟨rfl, rfl, rfl, rfl⟩

/-- C7, amended: every child accepted by `set_nodes` or `add_node` has
the container's path as a PLAIN string prefix of its path (the source
checks `startswith` only, with no separator requirement; decoded
container children are not checked at all). -/
theorem C7_amended (c v : PyNode) (l : List PyNode) (s : Bool) :
    (∀ c2, pySetNodes c l s = some c2 →
      ∀ n ∈ l, strStartswith n.path c.path = true) ∧
    (∀ c2, pyAddNode c v s = some c2 → strStartswith v.path c.path = true) := by
  constructor
  · intro c2 h n hn
    by_cases hc : l.all (fun n => strStartswith n.path c.path) = true
    · exact List.all_eq_true.mp hc n hn
    · unfold pySetNodes at h
      rw [if_neg hc] at h
      exact Option.noConfusion h
  · intro c2 h
    by_cases hc : strStartswith v.path c.path = true
    · exact hc
    · unfold pyAddNode at h
      rw [if_neg hc] at h
      exact Option.noConfusion h

/-- C7's amended theorem applied at a concrete container and children. -/
theorem C7_witness :
    strStartswith "a/b" "a" = true ∧ strStartswith "a/c" "a" = true := by
  have h := C7_amended (.mk "a" .containerNode [] false [] [] none [])
    (.mk "a/c" .node [] false [] [] none [])
    [.mk "a/b" .node [] false [] [] none []] true
  exact ⟨h.1 _ rfl (.mk "a/b" .node [] false [] [] none []) (by simp), h.2 _ rfl⟩

/-! ## Claim C9 -/

/-- Unfolding lemma: `getTransferDetailsRequest` with a resolved identity, written as an
explicit if-chain for rewriting. -/
theorem getTransferDetails_some (who : String) (job : UWSJob) :
    getTransferDetailsRequest (some who) job =
      if who ≠ job.owner then
        .error (.permissionDenied (who ++ " is not the owner of the job."))
      else if job.phase < UWSPhase.Executing then
        .error (.invalidJobStateError "Job not EXECUTING")
      else
        match job.transfer with
        | none => .error (.voSpaceError 400 "No transferDetails for this job.")
        | some "" => .error (.voSpaceError 400 "No transferDetails for this job.")
        | some t => .ok t := rfl

/-- C9: a transferDetails request by the job's owner fails with
`InvalidJobStateError` whenever the job's phase is before `EXECUTING`,
and every successful answer implies the phase was at least `EXECUTING`,
the requester was the owner, and the answer is exactly the stored
transfer details. -/
theorem C9_transfer_details (who : String) (job : UWSJob) :
    (who = job.owner → job.phase < UWSPhase.Executing →
      getTransferDetailsRequest (some who) job =
        .error (.invalidJobStateError "Job not EXECUTING")) ∧
    (∀ t, getTransferDetailsRequest (some who) job = .ok t →
      UWSPhase.Executing ≤ job.phase ∧ who = job.owner ∧ job.transfer = some t) := by
  constructor
  · intro he hp
    rw [getTransferDetails_some]
    rw [if_neg (fun hne => hne he), if_pos hp]
  · intro t h
    rw [getTransferDetails_some] at h
    by_cases he : who = job.owner
    · rw [if_neg (fun hne => hne he)] at h
      by_cases hp : job.phase < UWSPhase.Executing
      · rw [if_pos hp] at h
        exact Except.noConfusion h
      · rw [if_neg hp] at h
        refine ⟨Nat.le_of_not_lt hp, he, ?_⟩
        cases htr : job.transfer with
        | none =>
          rw [htr] at h
          exact Except.noConfusion h
        | some s2 =>
          rw [htr] at h
          split at h
          · exact Except.noConfusion h
          · exact Except.noConfusion h
          · rename_i x1 t2 hne2 heq
            injection h with h2
            rw [heq, h2]
    · rw [if_pos he] at h
      exact Except.noConfusion h

/-- C9's theorem applied at a QUEUED job (rejected) and an EXECUTING
job (details returned). -/
theorem C9_witness :
    getTransferDetailsRequest (some "alice") ⟨"alice", 1, some "x"⟩ =
      .error (.invalidJobStateError "Job not EXECUTING") ∧
    (UWSPhase.Executing ≤ (UWSJob.mk "alice" 2 (some "xml")).phase ∧
     "alice" = (UWSJob.mk "alice" 2 (some "xml")).owner ∧
     (UWSJob.mk "alice" 2 (some "xml")).transfer = some "xml") :=
  ⟨(C9_transfer_details "alice" ⟨"alice", 1, some "x"⟩).1 rfl (by decide),
   (C9_transfer_details "alice" ⟨"alice", 2, some "xml"⟩).2 "xml" rfl⟩

/-! ## Claim C10 -/

/-- Addresses below the allocation frontier are untouched by
`allocList`. -/
theorem allocList_cell_lt {α : Type} {j : Nat} :
    ∀ (s : Store α) (vs : List α), j < s.next →
      (allocList s vs).1.cell j = s.cell j := by
  intro s vs
  induction vs generalizing s with
  | nil => intro _; rfl
  | cons v vs ih =>
    intro hj
    calc (allocList s (v :: vs)).1.cell j
        = (allocList ⟨s.next + 1, Function.update s.cell s.next v⟩ vs).1.cell j := rfl
      _ = Function.update s.cell s.next v j := ih _ (Nat.lt_succ_of_lt hj)
      _ = s.cell j := Function.update_noteq (Nat.ne_of_lt hj) _ _

/-- Every address `allocList` hands out is fresh: at or above the old
frontier. -/
theorem allocList_mem_ge {α : Type} {r : Nat} :
    ∀ (s : Store α) (vs : List α), r ∈ (allocList s vs).2 → s.next ≤ r := by
  intro s vs
  induction vs generalizing s with
  | nil => intro h; exact absurd h (List.not_mem_nil r)
  | cons v vs ih =>
    intro h
    rcases List.mem_cons.mp h with h | h
    · exact h ▸ Nat.le_refl _
    · exact Nat.le_of_succ_le (ih ⟨s.next + 1, Function.update s.cell s.next v⟩ h)

/-- Reading back the fresh copies yields the copied values. -/
theorem allocList_read {α : Type} :
    ∀ (s : Store α) (vs : List α),
      readRefs (allocList s vs).1 (allocList s vs).2 = vs := by
  intro s vs
  induction vs generalizing s with
  | nil => rfl
  | cons v vs ih =>
    have hcell : (allocList ⟨s.next + 1, Function.update s.cell s.next v⟩ vs).1.cell s.next
        = v := by
      rw [allocList_cell_lt _ _ (Nat.lt_succ_self _)]
      exact Function.update_same _ _ _
    calc readRefs (allocList s (v :: vs)).1 (allocList s (v :: vs)).2
        = (allocList ⟨s.next + 1, Function.update s.cell s.next v⟩ vs).1.cell s.next ::
          readRefs (allocList ⟨s.next + 1, Function.update s.cell s.next v⟩ vs).1
            (allocList ⟨s.next + 1, Function.update s.cell s.next v⟩ vs).2 := rfl
      _ = v :: vs := by rw [hcell, ih]

/-- Deep-copy isolation, generically: after deep-copying the objects a
reference list points at, mutating any pre-existing object leaves the
copied cells unchanged, and they read back exactly the values the
argument held at call time. -/
theorem deepcopy_isolated {α : Type} (s : Store α) (arg : List Nat) (j : Nat) (v : α)
    (hj : j < s.next) :
    readRefs ((allocList s (readRefs s arg)).1.write j v)
        (allocList s (readRefs s arg)).2 = readRefs s arg ∧
    readRefs (allocList s (readRefs s arg)).1 (allocList s (readRefs s arg)).2 =
      readRefs s arg := by
  refine ⟨?_, allocList_read s (readRefs s arg)⟩
  have hmap : ∀ r ∈ (allocList s (readRefs s arg)).2,
      ((allocList s (readRefs s arg)).1.write j v).cell r =
        (allocList s (readRefs s arg)).1.cell r := by
    intro r hr
    have hge := allocList_mem_ge s (readRefs s arg) hr
    have hne : r ≠ j := fun he => absurd hj (by omega)
    exact Function.update_noteq hne _ _
  show ((allocList s (readRefs s arg)).2.map
      ((allocList s (readRefs s arg)).1.write j v).cell) = readRefs s arg
  rw [List.map_congr_left hmap]
  exact allocList_read s (readRefs s arg)

/-- C10: node state is isolated from caller-supplied lists.
`set_properties` and `set_nodes` deep-copy their argument
(`copy.deepcopy`, model.py 265 and 478): the node's stored references
are fresh cells, so mutating any pre-existing `Property`/`Node` object
(in particular any object of the caller's list, addresses `argp`/`argn`)
afterwards leaves the node's stored properties and children reading back
exactly the values the argument held at call time. -/
theorem C10_deepcopy_isolation (sp : Store Property) (sn : Store PyNode)
    (argp argn : List Nat) (j k : Nat) (v : Property) (w : PyNode)
    (hj : j < sp.next) (hk : k < sn.next) :
    (readRefs ((pySetPropertiesHeap sp argp).1.write j v)
        (pySetPropertiesHeap sp argp).2 = readRefs sp argp ∧
     readRefs (pySetPropertiesHeap sp argp).1 (pySetPropertiesHeap sp argp).2 =
       readRefs sp argp) ∧
    (readRefs ((pySetNodesHeap sn argn).1.write k w) (pySetNodesHeap sn argn).2 =
       readRefs sn argn ∧
     readRefs (pySetNodesHeap sn argn).1 (pySetNodesHeap sn argn).2 =
       readRefs sn argn) :=
  ⟨deepcopy_isolated sp argp j v hj, deepcopy_isolated sn argn k w hk⟩

/-- C10's theorem applied at one-object stores, mutating the original
object after the call. -/
theorem C10_witness :
    (readRefs ((pySetPropertiesHeap ⟨1, fun _ => ⟨"u", none, .undef, false⟩⟩ [0]).1.write 0
        ⟨"u2", some "x", .undef, false⟩)
        (pySetPropertiesHeap ⟨1, fun _ => ⟨"u", none, .undef, false⟩⟩ [0]).2 =
      readRefs ⟨1, fun _ => ⟨"u", none, .undef, false⟩⟩ [0] ∧
     readRefs (pySetPropertiesHeap ⟨1, fun _ => ⟨"u", none, .undef, false⟩⟩ [0]).1
        (pySetPropertiesHeap ⟨1, fun _ => ⟨"u", none, .undef, false⟩⟩ [0]).2 =
      readRefs ⟨1, fun _ => ⟨"u", none, .undef, false⟩⟩ [0]) ∧
    (readRefs ((pySetNodesHeap ⟨1, fun _ => .mk "n" .node [] false [] [] none []⟩ [0]).1.write 0
        (.mk "m" .node [] false [] [] none []))
        (pySetNodesHeap ⟨1, fun _ => .mk "n" .node [] false [] [] none []⟩ [0]).2 =
      readRefs ⟨1, fun _ => .mk "n" .node [] false [] [] none []⟩ [0] ∧
     readRefs (pySetNodesHeap ⟨1, fun _ => .mk "n" .node [] false [] [] none []⟩ [0]).1
        (pySetNodesHeap ⟨1, fun _ => .mk "n" .node [] false [] [] none []⟩ [0]).2 =
      readRefs ⟨1, fun _ => .mk "n" .node [] false [] [] none []⟩ [0]) :=
  C10_deepcopy_isolation ⟨1, fun _ => ⟨"u", none, .undef, false⟩⟩
    ⟨1, fun _ => .mk "n" .node [] false [] [] none []⟩ [0] [0] 0 0
    ⟨"u2", some "x", .undef, false⟩ (.mk "m" .node [] false [] [] none [])
    (Nat.lt_succ_self 0) (Nat.lt_succ_self 0)

/-! ## Claims C1, C5, C8 -/

/-- C1: the XML round-trip for transfers breaks — serializing a
`PushToSpace` that carries a view and decoding it back does not return
an equal transfer but crashes with `AttributeError`, because
`ProtocolTransfer.build_node` reads `.attrib` on the xpath result LIST
(model.py 705) instead of on its first element.  (`xmlCanon` is the
serialize-then-parse normalization.) -/
theorem C1_transfer_view_decode_crash :
    transferFromstring (some (xmlCanon (transferTostring
      (.pushToSpace "a" [] (some "ivo://ivoa.net/vospace/core#defaultview"))))) =
    .error .attributeError := rfl

/-- C5: a synchronous transfer whose direction is a node-to-node path is
NOT rejected with `InvalidArgument` — with the falsy `keep_bytes` the
dispatcher's construction step succeeds and builds a `Move` transfer,
which then proceeds to job creation in the EXECUTING phase. -/
theorem C5_sync_node_direction_not_rejected :
    syncTransferConstruct (some "vos://icrar.org!vospace/source")
      (some "vos://icrar.org!vospace/dest") = .ok (.move "source" "dest") := rfl

/-- C8: reading a container with the positive limit `1` does not return
the first child — `get_node_request` executes
`node.nodes = node.nodes[:limit]`, an assignment to the getter-only
property `ContainerNode.nodes`, which raises `AttributeError` (the
repository's own test `test_create_node` expects the truncated child
list instead). -/
theorem C8_limit_truncation_crash :
    getNodeRequest (some "max") (some "1")
      (.mk "test1" .containerNode [] false [] [] none
        [.mk "test1/data" .node [] false [] [] none [],
         .mk "test1/test2" .containerNode [] false [] [] none []]) =
    .error .attributeError := rfl
